import Mathlib

/-!
# Formal model of the evmonster combat core

A shallow embedding of the combat, spell and mob-behaviour rules of the
evmonster MUD (`gamerules/combat.py`, `gamerules/spells.py`,
`gamerules/mobs.py`, `typeclasses/characters.py`, `typeclasses/mobs.py`),
together with theorems checking the natural-language specification against it.

Modelling conventions:
* random draws (`random.random()`, `random.randint(a, b)`) are threaded as
  explicit arguments;
* Python float expressions over integer data (`int(x / y)`, `int(x * (p/q))`)
  are modelled in exact rational arithmetic truncated toward zero
  (Python `int()` truncates toward zero), via `Int.tdiv`;
* messaging side effects are recorded as explicit event lists wherever a
  checked property depends on them, and omitted otherwise (noted per
  definition);
* Python truthiness of optional/numeric fields (`if spell.class_id:`,
  `if last_interval and last_hook_key:`) is modelled explicitly: `None`,
  `0` and `""` are falsy.
-/

namespace EvMonster

/-- Python `int(a / b)` on the exact rational `a / b` (`b > 0` at every use
site): truncation toward zero. -/
def pyTrunc (a b : ℤ) : ℤ := Int.tdiv a b

/-- Python truthiness of an optional string (`None` and `""` are falsy). -/
def truthyOptStr : Option String → Bool
  | none => false
  | some s => s ≠ ""

/-- Python truthiness of an optional number (`None` and `0` are falsy). -/
def truthyOptNat : Option ℕ → Bool
  | none => false
  | some n => n ≠ 0

/-! ## Damage pipeline (`src/gamerules/combat.py`) -/

/-- The two armor stats `apply_armor` reads off the target. -/
structure ArmorTarget where
  base_armor : ℤ
  deflect_armor : ℤ
deriving Repr, DecidableEq

/-- Shallow embedding of `apply_armor` (src/gamerules/combat.py, lines 82-92).
The uniform percentage roll `random.randint(0, 100)` is threaded as
`deflectRoll`.  Returns the final damage together with the armor messages sent
to the target.  Note that the source's flat-armor branch recomputes
`final_damage` from the original `damage` argument, not from the possibly
deflect-halved `final_damage`. -/
def apply_armor (target : ArmorTarget) (damage : ℤ) (deflectRoll : ℕ) :
    ℤ × List String :=
  let step1 :=
    if target.deflect_armor > 0 ∧ (deflectRoll : ℤ) < target.deflect_armor then
      (Int.tdiv damage 2, ["The attack is deflected by your armor."])
    else (damage, [])
  if target.base_armor > 0 then
    (pyTrunc (damage * (100 - target.base_armor)) 100,
      step1.2 ++ ["The attack is partially blocked by your armor."])
  else step1

/-- The attacker stats read by `attack_damage` (derived stats on
`typeclasses/characters.py`; each is a plain integer at the call). -/
structure AttackerStats where
  base_weapon_damage : ℤ
  random_weapon_damage : ℤ
  total_weapon_use : ℤ
  base_claw_damage : ℤ
  random_claw_damage : ℤ
  level_claw_damage : ℤ
  level : ℤ
  shadow_damage_percent : ℤ
deriving Repr, DecidableEq

/-- Shallow embedding of `attack_damage` (src/gamerules/combat.py, lines
95-112).  The uniform draw `random.random()` in [0,1) is threaded as the exact
rational `multNum / multDen`; on a surprise attack the source replaces it by
the fixed 0.7 = 7/10. -/
def attack_damage (a : AttackerStats) (hasWeapon : Bool) (multNum multDen : ℤ)
    (is_surprise : Bool) : ℤ :=
  let mN := if is_surprise then 7 else multNum
  let mD := if is_surprise then 10 else multDen
  let dmg :=
    if hasWeapon then
      pyTrunc ((a.base_weapon_damage + pyTrunc (a.random_weapon_damage * mN) mD)
        * a.total_weapon_use) 100
    else
      a.base_claw_damage + pyTrunc (a.random_claw_damage * mN) mD
        + a.level_claw_damage * a.level
  let dmg2 :=
    if is_surprise then dmg + pyTrunc (dmg * a.shadow_damage_percent) 100
    else dmg
  max dmg2 0

/-! ## Mob attack damage (`src/gamerules/mobs.py`) -/

/-- The mob stats read by `mob_attack_damage`. -/
structure MobStats where
  base_damage : ℤ
  random_damage : ℤ
  shadow_damage_percent : ℤ
deriving Repr, DecidableEq

/-- Shallow embedding of `mob_attack_damage` (src/gamerules/mobs.py, lines
55-61).  The source computes `rand_multiplier` (0.7 on surprise, else a
uniform draw, threaded here as `multNum / multDen`) but never uses it in the
damage formula; `randRoll` is the draw of `random.randint(0,
mob.random_damage)`. -/
def mob_attack_damage (m : MobStats) (multNum multDen : ℤ) (randRoll : ℤ)
    (is_surprise : Bool) : ℤ :=
  let _rand_multiplier : ℤ × ℤ :=
    if is_surprise then (7, 10) else (multNum, multDen)
  let dmg := m.base_damage + randRoll
  if is_surprise then dmg + pyTrunc (dmg * m.shadow_damage_percent) 100
  else dmg

/-! ## Combat resolution events (`resolve_attack`) -/

/-- The externally observable steps of one `resolve_attack` call, in order. -/
inductive AttackEvent
  | noWeaponMsg
  | selfAttackMsg
  | notAttackableMsg
  | surpriseAttackerMsg
  | surpriseTargetMsg
  | revealed
  | attackerDamageMsg (dmg : ℤ)
  | targetDamageMsg (dmg : ℤ)
  | bystanderDamageMsg (dmg : ℤ)
  | armorTargetMsg (text : String)
  | poisonAttackerMsg
  | poisonTargetMsg
  | poisonRoomMsg
  | poisonedSet
  | healthDelta (amount : ℤ)
deriving Repr, DecidableEq

/-- The attacker fields read by `resolve_attack`. -/
structure AttackerRec where
  key : String
  hasWeapon : Bool
  has_claws : Bool
  is_hiding : Bool
  poison_chance : ℤ
  stats : AttackerStats
deriving Repr, DecidableEq

/-- The target fields read by `resolve_attack`. -/
structure TargetRec where
  key : String
  attackable : Bool
  is_dead : Bool
  armor : ArmorTarget
deriving Repr, DecidableEq

/-- Shallow embedding of `resolve_attack` (src/gamerules/combat.py, lines
29-79) as the ordered list of its observable steps.  `multNum / multDen` is
the `random.random()` draw, `deflectRoll` the armor roll inside `apply_armor`,
`poisonRoll` the draw of `random.randint(0, 100)` for the poison check, and
`savingThrowResisted` the result of the external saving-throw service.
Message texts are abstracted to event tags; the final `target.gain_health`
call is the `healthDelta` event. -/
def resolve_attack (atk : AttackerRec) (tgt : TargetRec)
    (multNum multDen : ℤ) (deflectRoll poisonRoll : ℕ)
    (savingThrowResisted : Bool) : List AttackEvent :=
  if atk.hasWeapon = false ∧ atk.has_claws = false then [.noWeaponMsg]
  else if atk.key = tgt.key then [.selfAttackMsg]
  else if tgt.attackable = false then [.notAttackableMsg]
  else if tgt.is_dead then []
  else
    let is_surprise := atk.is_hiding
    let surpriseEvents : List AttackEvent :=
      if atk.is_hiding then
        [.surpriseAttackerMsg, .surpriseTargetMsg, .revealed]
      else []
    let damage := attack_damage atk.stats atk.hasWeapon multNum multDen is_surprise
    let msgEvents : List AttackEvent :=
      [.attackerDamageMsg damage, .targetDamageMsg damage,
        .bystanderDamageMsg damage]
    let armorRes := apply_armor tgt.armor damage deflectRoll
    let armorEvents := armorRes.2.map AttackEvent.armorTargetMsg
    let poisonEvents : List AttackEvent :=
      if (poisonRoll : ℤ) < atk.poison_chance then
        [.poisonAttackerMsg] ++
          (if savingThrowResisted = false then
            [.poisonTargetMsg, .poisonRoomMsg, .poisonedSet]
          else [])
      else []
    surpriseEvents ++ msgEvents ++ armorEvents ++ poisonEvents ++
      [.healthDelta (-armorRes.1)]

/-! ## Health mutation (`typeclasses/characters.py`, `typeclasses/mobs.py`) -/

/-- Modelled from the spec: `MIN_HEALTH` is imported from
`gamerules/health.py`, which is not among the combat-core sources; spec §4.2
gives the damage clamp as `health = max(health + delta, 0)`, so the floor
is 0. -/
def MIN_HEALTH : ℤ := 0

/-- The vitals read and written by `Character.gain_health`. -/
structure CharVitals where
  health : ℤ
  max_health : ℤ
deriving Repr, DecidableEq

/-- Shallow embedding of the health update performed by
`Character.gain_health` (src/typeclasses/characters.py, lines 504-521).
Returns the updated vitals and whether the death cascade
(`character_death`, after cancelling the active/queued commands) was
triggered.  The damage/health messages sent to the actor and bystanders are
pure messaging side effects and are omitted here. -/
def character_gain_health (v : CharVitals) (amount : ℤ) : CharVitals × Bool :=
  if amount < 0 then
    let h := max (v.health - (-amount)) MIN_HEALTH
    ({ v with health := h }, decide (h ≤ 0))
  else
    ({ v with health := min (v.health + amount) v.max_health }, false)

/-! ## Mob behavioural state machine (`src/typeclasses/mobs.py`) -/

/-- The persistent (db) mob configuration fields read by the state machine.
`at_object_creation` initialises `patrolling`, `aggressive`,
`moves_between_rooms` and the three paces; `hunting` is never initialised
anywhere in the sources, so on a spawned mob it is `None`, i.e. falsy. -/
structure MobConfig where
  key : String
  patrolling : Bool
  aggressive : Bool
  hunting : Bool
  moves_between_rooms : Bool
  patrolling_pace : ℕ
  attacking_pace : ℕ
  hunting_pace : ℕ
deriving Repr, DecidableEq

/-- One `TICKER_HANDLER` subscription, keyed by interval, callback hook name
and idstring — the triple `TICKER_HANDLER.add` / `.remove` are called with. -/
structure TickerSub where
  interval : ℕ
  hook : String
  idstring : String
deriving Repr, DecidableEq

/-- The mutable mob state touched by `gain_health` and the `start_*`
transitions: vitals, the ticker bookkeeping of `_set_ticker`, and the
transient (ndb) state flags. -/
structure MobState where
  health : ℤ
  max_health : ℤ
  tickers : List TickerSub
  last_ticker_interval : Option ℕ
  last_hook_key : Option String
  is_patrolling : Bool
  is_hunting : Bool
  is_attacking : Bool
  ndb_aggressive : Bool
deriving Repr, DecidableEq

/-- The constant idstring `_set_ticker` uses for a given mob
(`f"tick_state_{self.key}"`). -/
def mobIdstring (cfg : MobConfig) : String := "tick_state_" ++ cfg.key

/-- Shallow embedding of the removal step of `Mob._set_ticker`
(src/typeclasses/mobs.py, lines 169-199).  `TICKER_HANDLER` is modelled as
the list of this mob's subscriptions; `remove` deletes a matching
subscription if present (the source swallows the `KeyError` raised for a
missing one).  The removal is guarded by Python truthiness of the two stored
fields: `if last_interval and last_hook_key`. -/
def removeLastSub (cfg : MobConfig) (s : MobState) : List TickerSub :=
  match s.last_ticker_interval, s.last_hook_key with
  | some li, some lh =>
      if li ≠ 0 ∧ lh ≠ "" then
        s.tickers.filter (fun t =>
          !(decide (t.interval = li ∧ t.hook = lh ∧
                    t.idstring = mobIdstring cfg)))
      else s.tickers
  | _, _ => s.tickers

/-- The main body of `Mob._set_ticker`: cancel the recorded previous
subscription (`removeLastSub` above), store the new bookkeeping fields, and
unless `stop` is set add the new subscription. -/
def set_ticker (cfg : MobConfig) (s : MobState) (interval : Option ℕ)
    (hook : Option String) (stop : Bool) : MobState :=
  let s1 := { s with tickers := removeLastSub cfg s,
                     last_ticker_interval := interval,
                     last_hook_key := hook }
  if stop then s1
  else { s1 with
          tickers := s1.tickers ++
            [⟨interval.getD 0, hook.getD "", mobIdstring cfg⟩] }

/-- Shallow embedding of `Mob.start_idle` (src/typeclasses/mobs.py, lines
211-213). -/
def start_idle (cfg : MobConfig) (s : MobState) : MobState :=
  set_ticker cfg s none none true

/-- Shallow embedding of `Mob.start_patrolling` (src/typeclasses/mobs.py,
lines 215-225). -/
def start_patrolling (cfg : MobConfig) (s : MobState) : MobState :=
  if cfg.patrolling = false then start_idle cfg s
  else
    let s1 := set_ticker cfg s (some cfg.patrolling_pace) (some "do_patrol") false
    { s1 with is_patrolling := true, is_hunting := false, is_attacking := false }

/-- Shallow embedding of `Mob.start_hunting` (src/typeclasses/mobs.py, lines
227-235).  Registers the hook key `"do_hunt"`, exactly as the source does. -/
def start_hunting (cfg : MobConfig) (s : MobState) : MobState :=
  if cfg.hunting = false then start_patrolling cfg s
  else
    let s1 := set_ticker cfg s (some cfg.hunting_pace) (some "do_hunt") false
    { s1 with is_patrolling := false, is_hunting := true, is_attacking := false }

/-- Shallow embedding of `Mob.start_attacking` (src/typeclasses/mobs.py,
lines 237-245). -/
def start_attacking (cfg : MobConfig) (s : MobState) : MobState :=
  if cfg.aggressive = false then start_hunting cfg s
  else
    let s1 := set_ticker cfg s (some cfg.attacking_pace) (some "do_attack") false
    { s1 with is_patrolling := false, is_hunting := false, is_attacking := true }

/-- The tick-hook methods actually defined on the `Mob` typeclass
(src/typeclasses/mobs.py): `do_patrol` (line 247), `do_hunting` (line 277)
and `do_attack` (line 311).  `getattr(self, hook_key)` inside `_set_ticker`
succeeds exactly for these names. -/
def mobHasHookMethod : String → Bool
  | "do_patrol" => true
  | "do_hunting" => true
  | "do_attack" => true
  | _ => false

/-- Shallow embedding of `Mob.gain_health` (src/typeclasses/mobs.py, lines
102-113).  Returns the updated state and whether `mob_death` was invoked.
The room health broadcast of the survival branch is a pure messaging side
effect and is omitted. -/
def mob_gain_health (cfg : MobConfig) (s : MobState) (amount : ℤ) :
    MobState × Bool :=
  let h := max MIN_HEALTH (min s.max_health (s.health + amount))
  let s1 := { s with health := h }
  if h ≤ 0 then (s1, true)
  else if amount < 0 ∧ s1.is_attacking = false then
    (start_attacking cfg { s1 with ndb_aggressive := true }, false)
  else (s1, false)

/-- Shallow embedding of `Mob.do_attack` (src/typeclasses/mobs.py, lines
311-327).  `targetFound` is the outcome of `_find_target` on the mob's
current location; the returned flag records whether `resolve_mob_attack` was
invoked against the chosen target.  The flavor-utterance chance
(`_maybe_say_something`) is a pure messaging side effect and is omitted. -/
def do_attack (cfg : MobConfig) (s : MobState) (targetFound : Bool) :
    MobState × Bool :=
  if targetFound = false then (start_hunting cfg s, false)
  else (s, true)

/-- The subscriptions `_set_ticker`'s bookkeeping fields claim to exist:
one when both stored fields are truthy, none otherwise. -/
def recordedSubs (cfg : MobConfig) (s : MobState) : List TickerSub :=
  match s.last_ticker_interval, s.last_hook_key with
  | some li, some lh =>
      if li ≠ 0 ∧ lh ≠ "" then [⟨li, lh, mobIdstring cfg⟩] else []
  | _, _ => []

/-- The ticker-handler invariant: the live subscriptions are exactly the ones
the `last_ticker_interval` / `last_hook_key` bookkeeping records. -/
def TickerInv (cfg : MobConfig) (s : MobState) : Prop :=
  s.tickers = recordedSubs cfg s

/-- The four behavioural-state transitions of the mob state machine. -/
inductive MobTransition
  | idle
  | patrolling
  | hunting
  | attacking
deriving Repr, DecidableEq

/-- Dispatch one transition. -/
def applyTransition (cfg : MobConfig) (t : MobTransition) (s : MobState) :
    MobState :=
  match t with
  | .idle => start_idle cfg s
  | .patrolling => start_patrolling cfg s
  | .hunting => start_hunting cfg s
  | .attacking => start_attacking cfg s

/-- Apply a sequence of transitions, left to right. -/
def applyTransitions (cfg : MobConfig) (ts : List MobTransition)
    (s : MobState) : MobState :=
  ts.foldl (fun s t => applyTransition cfg t s) s

/-! ## Spells (`src/gamerules/spells.py`) -/

/-- The spell-effect kinds dispatched by `apply_spell_effect`
(src/gamerules/spells.py, lines 84-118; the enum itself lives in
`gamerules/spell_effect_kind.py`, outside the combat-core sources, and the
constructor names are taken from the dispatch chain). -/
inductive SpellEffectKind
  | CURE_POISON
  | STRENGTH
  | SPEED
  | INVISIBLE
  | SEE_INVISIBLE
  | HEAL
  | HURT
  | SLEEP
  | PUSH
  | ANNOUNCE
  | COMMAND
  | DISTANCE_HURT
  | DETECT_MAGIC
  | FIND_PERSON
  | LOCATE
  | WEAK
  | SLOW
deriving Repr, DecidableEq

/-- One declared spell effect: a kind tag, four kind-specific numeric
parameters, and the two flags. -/
structure SpellEffect where
  effect_kind : SpellEffectKind
  param_1 : ℤ
  param_2 : ℤ
  param_3 : ℤ
  param_4 : ℤ
  affects_room : Bool
  affects_caster : Bool
deriving Repr, DecidableEq

/-- Whom a `gain_health` call issued by `apply_hurt_effect` reaches:
the caster itself, the explicit target, or the room occupant at a given
index of `caster.location.contents`. -/
inductive HurtRecipient
  | caster
  | target
  | occupant (idx : ℕ)
deriving Repr, DecidableEq

/-- One `gain_health` call issued by `apply_hurt_effect`:
recipient, delta, and whether `damager=caster` was passed (the final
flag-driven call passes `damager=None`). -/
structure GainHealthCall where
  recipient : HurtRecipient
  amount : ℤ
  damagerIsCaster : Bool
deriving Repr, DecidableEq

/-- A room occupant as seen by the `affects_room` loop of
`apply_hurt_effect`: whether it is the caster itself and whether it has a
`gain_health` attribute. -/
structure Occupant where
  isCaster : Bool
  hasGainHealth : Bool
deriving Repr, DecidableEq

/-- The `gain_health` calls the `affects_room` loop issues: every occupant
other than the caster that has the `gain_health` capability, in room order. -/
def roomHurtCalls (damage : ℤ) (occupants : List Occupant) :
    List GainHealthCall :=
  occupants.enum.filterMap (fun p =>
    if p.2.isCaster = false ∧ p.2.hasGainHealth = true then
      some ⟨.occupant p.1, -damage, true⟩
    else none)

/-- Shallow embedding of `apply_hurt_effect` (src/gamerules/spells.py, lines
145-165) as the ordered list of `gain_health` calls it issues.  `randRoll` is
the draw of `random.randint(0, rand + level_rand * caster.level)`.  The
result is `none` when the source would raise: the flag-driven final call is
written `target.gain_health(-damage, damager=None)` — note: `target`, not
`caster` — and raises `AttributeError` when there is no target or the target
has no `gain_health` (the caster, a Character or Mob, always has one, so the
guard `hasattr(caster, "gain_health")` is always true). -/
def apply_hurt_effect (effect : SpellEffect) (casterLevel : ℤ) (randRoll : ℤ)
    (occupants : List Occupant) (targetPresent : Bool)
    (targetHasGainHealth : Bool) : Option (List GainHealthCall) :=
  let base_dmg := effect.param_1 + effect.param_2 * casterLevel
  let _random_dmg := effect.param_3 + effect.param_4 * casterLevel
  let damage := base_dmg + randRoll
  let mainCalls :=
    if effect.affects_room then roomHurtCalls damage occupants
    else if targetPresent = true ∧ targetHasGainHealth = true then
      [⟨.target, -damage, true⟩]
    else []
  if effect.affects_caster then
    if targetPresent = true ∧ targetHasGainHealth = true then
      some (mainCalls ++ [⟨.target, -damage, false⟩])
    else none
  else some mainCalls

/-- The spell template fields read by `can_cast_spell` / `cast_spell`
(immutable collaborator-owned data; `class_id = 0` / `group = 0` model the
falsy no-restriction values). -/
structure Spell where
  key : String
  class_id : ℕ
  group : ℕ
  min_level : ℤ
  mana : ℤ
  level_mana : ℤ
  reveals : Bool
  failure_chance : ℕ
  failure_desc : Option String
  caster_desc : Option String
  victim_desc : Option String
  affects_room : Bool
  effects : List SpellEffect
deriving Repr, DecidableEq

/-- The caster fields read by `can_cast_spell` / `cast_spell`. -/
structure Caster where
  class_record_id : ℕ
  class_group : ℕ
  level : ℤ
  mana : ℤ
  max_mana : ℤ
  hiding_depth : ℕ
deriving Repr, DecidableEq

/-- Shallow embedding of `can_cast_spell` (src/gamerules/spells.py, lines
6-23).  The Python function returns `False` from each failed check; when all
four checks pass it reaches the end of the function body with no `return`
statement, so it returns `None`, modelled as `none`.  The second component is
the rejection message sent to the caster, if any. -/
def can_cast_spell (caster : Caster) (spell : Spell) :
    Option Bool × Option String :=
  if spell.class_id ≠ 0 ∧ spell.class_id ≠ caster.class_record_id then
    (some false, some "You are the wrong class to cast that spell.")
  else if spell.group ≠ 0 ∧ spell.group ≠ caster.class_group then
    (some false, some "You are the wrong group to cast that spell.")
  else if caster.level < spell.min_level then
    (some false, some ("Your level is too low to cast " ++ spell.key ++ "."))
  else if caster.mana < spell.mana + spell.level_mana * caster.level then
    (some false, some "You do not have enough mana.")
  else (none, none)

/-- Modelled from the spec: `MIN_MANA` is imported from `gamerules/mana.py`,
which is not among the combat-core sources; mana is a non-negative resource,
floor 0. -/
def MIN_MANA : ℤ := 0

/-- Shallow embedding of `Character.gain_mana`
(src/typeclasses/characters.py, line 525). -/
def gain_mana (c : Caster) (amount : ℤ) : Caster :=
  { c with mana := max MIN_MANA (min c.max_mana (c.mana + amount)) }

/-- Modelled from the spec: `reveal` lives in `gamerules/hiding.py`, not
among the combat-core sources; per the spec glossary concealment is a depth
counter cleared by attacking or certain spell effects, so `reveal` zeroes
it. -/
def reveal (c : Caster) : Caster := { c with hiding_depth := 0 }

/-- The outcome of one `cast_spell` call: the caster's final mana and hiding
depth, the messages sent to the caster in order, and the spell effects handed
to `apply_spell_effect`, in declared order. -/
structure CastResult where
  mana : ℤ
  hiding_depth : ℕ
  casterMsgs : List String
  effectsApplied : List SpellEffect
deriving Repr, DecidableEq

/-- The failure message `cast_spell` emits: `spell.failure_desc` when truthy,
else the fixed fallback. -/
def failureMessage (spell : Spell) : String :=
  match spell.failure_desc with
  | some d => if d = "" then "Your spell failed!" else d
  | none => "Your spell failed!"

/-- Shallow embedding of `cast_spell` (src/gamerules/spells.py, lines
26-81).  `failRoll` is the draw of `random.randint(0, 100)` for the failure
check.  Messages to the room and to the target are pure messaging side
effects and are omitted; `casterMsgs` collects the messages sent to the
caster, and `effectsApplied` the effects routed to `apply_spell_effect`. -/
def cast_spell (caster : Caster) (spell : Spell) (failRoll : ℕ) : CastResult :=
  if spell.class_id ≠ 0 ∧ spell.class_id ≠ caster.class_record_id then
    ⟨caster.mana, caster.hiding_depth,
      ["You are the wrong class to cast that spell."], []⟩
  else if spell.group ≠ 0 ∧ spell.group ≠ caster.class_group then
    ⟨caster.mana, caster.hiding_depth,
      ["You are the wrong group to cast that spell."], []⟩
  else if caster.level < spell.min_level then
    ⟨caster.mana, caster.hiding_depth,
      ["Your level is too low to cast " ++ spell.key ++ "."], []⟩
  else if caster.mana < spell.mana + spell.level_mana * caster.level then
    ⟨caster.mana, caster.hiding_depth, ["You do not have enough mana."], []⟩
  else
    let mana_cost := spell.mana + spell.level_mana * caster.level
    let c1 := if spell.reveals = true ∧ caster.hiding_depth > 0 then reveal caster
              else caster
    if spell.failure_chance ≠ 0 ∧ failRoll < spell.failure_chance then
      ⟨c1.mana, c1.hiding_depth, [failureMessage spell], []⟩
    else
      let c2 := gain_mana c1 (-mana_cost)
      let msgs := ["You cast " ++ spell.key ++ "."] ++
        (match spell.caster_desc with
          | some d => if d = "" then [] else [d]
          | none => [])
      ⟨c2.mana, c2.hiding_depth, msgs, spell.effects⟩

/-! ## Death handling (`src/gamerules/combat.py`) -/

/-- The victim fields `character_death` / `reset_victim_state` read and
write. -/
structure VictimState where
  name : String
  xp : ℤ
  mana : ℤ
  poisoned : Bool
  has_active_command : Bool
  command_queue_len : ℕ
  frozen_until : ℤ
  hiding_depth : ℕ
  resting : Bool
deriving Repr, DecidableEq

/-- The killer fields `character_death` reads. -/
structure KillerInfo where
  name : String
  isCharacter : Bool
  xp : ℤ
deriving Repr, DecidableEq

/-- One object held by the victim at death: its name, worth, and whether its
`at_before_drop` hook vetoes the drop. -/
structure HeldItem where
  name : String
  worth : ℤ
  dropVetoed : Bool
deriving Repr, DecidableEq

/-- Shallow embedding of `reset_victim_state` (src/gamerules/combat.py, lines
219-227). -/
def reset_victim_state (v : VictimState) : VictimState :=
  { v with mana := 0, poisoned := false, has_active_command := false,
           command_queue_len := 0, frozen_until := 0, hiding_depth := 0,
           resting := false }

/-- Modelled from the spec: `set_xp` belongs to the external experience/level
service (`gamerules/xp.py`, not among the combat-core sources); spec §6 lists
it as a set-experience mutator, so it stores the given value. -/
def set_xp (v : VictimState) (xp : ℤ) : VictimState := { v with xp := xp }

/-- The outcome of one `character_death` call.  `globalMsgs` records the
world-visible broadcasts issued through the external messaging sink
(`msg_global`, modelled from the spec as fire-and-forget message delivery),
in call order. -/
structure DeathResult where
  globalMsgs : List String
  killerGainedXp : Bool
  droppedItems : List String
  destroyedItems : List String
  victim : VictimState
  movedToVoid : Bool
  startingGoldGranted : Bool
deriving Repr, DecidableEq

/-- Shallow embedding of `character_death` (src/gamerules/combat.py, lines
168-216).  `killer` / `weapon_name` mirror the optional arguments; Python
truthiness makes an empty weapon name fall into the no-weapon variants.  The
kill-experience award to the killer, the per-item drop messages and the Void
relocation go through external collaborators (spec §6) and are recorded as
flags/lists; `set_xp` is the spec-modelled mutator above. -/
def character_death (victim : VictimState) (items : List HeldItem)
    (killer : Option KillerInfo) (weapon_name : Option String) : DeathResult :=
  let kName := (killer.map (fun k => k.name)).getD ""
  let wName := weapon_name.getD ""
  let deathMsg :=
    if killer.isSome = true ∧ truthyOptStr weapon_name = true then
      victim.name ++ " has been slain by " ++ kName ++ "\x27s " ++ wName ++ "."
    else if killer.isSome then
      victim.name ++ " has been slain by " ++ kName ++ "."
    else if truthyOptStr weapon_name then
      victim.name ++ " has been slain by a " ++ wName ++ "."
    else
      victim.name ++ " has died of mysterious causes."
  let keepItem := fun (i : HeldItem) =>
    decide (i.worth ≠ 0) && !i.dropVetoed
  let v1 := set_xp victim (Int.tdiv victim.xp 2)
  let v2 := reset_victim_state v1
  { globalMsgs := [deathMsg]
    killerGainedXp := (killer.map (fun k => k.isCharacter)).getD false
    droppedItems := (items.filter keepItem).map (fun i => i.name)
    destroyedItems := (items.filter (fun i => !(keepItem i))).map
      (fun i => i.name)
    victim := v2
    movedToVoid := true
    startingGoldGranted := true }

/-! ## Concrete sample data used by the theorems below -/

/-- A mob configuration exactly as `Mob.at_object_creation` leaves it:
`patrolling = True`, `aggressive = True`, `moves_between_rooms = True`,
paces 6/2/1, and `db.hunting` never set (falsy). -/
def mobCfgDefault : MobConfig := ⟨"m", true, true, false, true, 6, 2, 1⟩

/-- A default-config mob with `db.hunting` explicitly set truthy. -/
def mobCfgHunter : MobConfig := ⟨"m", true, true, true, true, 6, 2, 1⟩

/-- A healthy default-config mob in the Attacking state, with the attacking
ticker installed and recorded. -/
def mobStateAttacking : MobState :=
  ⟨100, 100, [⟨2, "do_attack", "tick_state_m"⟩], some 2, some "do_attack",
    false, false, true, false⟩

/-- A freshly initialised mob state: full health, no ticker, no flags. -/
def mobStateFresh : MobState :=
  ⟨100, 100, [], none, none, false, false, false, false⟩

/-- A sample spell: restricted to class 1 and group 1, minimum level 3,
mana cost 10 + 1 per level, 30% failure chance, no effects. -/
def spellZap : Spell :=
  ⟨"zap", 1, 1, 3, 10, 1, false, 30, none, none, none, false, []⟩

/-- A caster that passes all four eligibility checks for `spellZap`. -/
def casterElig : Caster := ⟨1, 1, 5, 100, 100, 0⟩

/-- A caster failing only the mana check for `spellZap`. -/
def casterLowMana : Caster := ⟨1, 1, 5, 2, 100, 0⟩

/-- A concealed claw attacker, matching the spec §8 scenario: claw base 5,
random 0 (the random-claw-damage stat is 10 in the multiplier exhibit
below), level-claw 2, level 1, shadow damage 50%. -/
def surpriseAttacker : AttackerRec :=
  ⟨"a", false, true, true, 0, ⟨0, 0, 0, 5, 0, 2, 1, 50⟩⟩

/-- An unarmored live target for the surprise-attack exhibit. -/
def surpriseTarget : TargetRec := ⟨"t", true, false, ⟨0, 0⟩⟩

/-! ## Ticker bookkeeping lemmas -/

theorem recordedSubs_length_le (cfg : MobConfig) (s : MobState) :
    (recordedSubs cfg s).length ≤ 1 := by
  unfold recordedSubs
  rcases s.last_ticker_interval with _ | li <;>
    rcases s.last_hook_key with _ | lh <;> simp
  split_ifs <;> simp

theorem removeLastSub_eq_nil (cfg : MobConfig) (s : MobState)
    (hinv : TickerInv cfg s) : removeLastSub cfg s = [] := by
  unfold TickerInv recordedSubs at hinv
  unfold removeLastSub
  rcases hli : s.last_ticker_interval with _ | li <;>
    rcases hlh : s.last_hook_key with _ | lh <;>
    rw [hli, hlh] at hinv <;> simp at hinv ⊢ <;> try exact hinv
  split_ifs at hinv ⊢ with h
  · rw [hinv]
    simp [List.filter]
  · exact hinv

theorem set_ticker_add (cfg : MobConfig) (s : MobState) (i : ℕ) (hk : String)
    (hinv : TickerInv cfg s) :
    set_ticker cfg s (some i) (some hk) false =
      { s with tickers := [⟨i, hk, mobIdstring cfg⟩],
               last_ticker_interval := some i, last_hook_key := some hk } := by
  unfold set_ticker
  rw [removeLastSub_eq_nil cfg s hinv]
  rfl

theorem set_ticker_stop (cfg : MobConfig) (s : MobState)
    (hinv : TickerInv cfg s) :
    set_ticker cfg s none none true =
      { s with tickers := [], last_ticker_interval := none,
               last_hook_key := none } := by
  unfold set_ticker
  rw [removeLastSub_eq_nil cfg s hinv]
  rfl

theorem tickerInv_single (cfg : MobConfig) (s : MobState) (i : ℕ) (hk : String)
    (hi : i ≠ 0) (hh : hk ≠ "") :
    TickerInv cfg { s with tickers := [⟨i, hk, mobIdstring cfg⟩],
                           last_ticker_interval := some i,
                           last_hook_key := some hk } := by
  simp [TickerInv, recordedSubs, hi, hh]

theorem tickerInv_empty (cfg : MobConfig) (s : MobState) :
    TickerInv cfg { s with tickers := [], last_ticker_interval := none,
                           last_hook_key := none } := by
  simp [TickerInv, recordedSubs]

theorem start_idle_eq (cfg : MobConfig) (s : MobState)
    (hinv : TickerInv cfg s) :
    start_idle cfg s =
      { s with tickers := [], last_ticker_interval := none,
               last_hook_key := none } := by
  unfold start_idle
  exact set_ticker_stop cfg s hinv

theorem start_patrolling_eq (cfg : MobConfig) (s : MobState)
    (hinv : TickerInv cfg s) (hp : cfg.patrolling = true) :
    start_patrolling cfg s =
      { s with tickers := [⟨cfg.patrolling_pace, "do_patrol", mobIdstring cfg⟩],
               last_ticker_interval := some cfg.patrolling_pace,
               last_hook_key := some "do_patrol",
               is_patrolling := true, is_hunting := false,
               is_attacking := false } := by
  unfold start_patrolling
  rw [hp]
  simp only [Bool.true_eq_false, if_false]
  rw [set_ticker_add cfg s _ _ hinv]

theorem start_attacking_eq (cfg : MobConfig) (s : MobState)
    (hinv : TickerInv cfg s) (hagg : cfg.aggressive = true) :
    start_attacking cfg s =
      { s with tickers := [⟨cfg.attacking_pace, "do_attack", mobIdstring cfg⟩],
               last_ticker_interval := some cfg.attacking_pace,
               last_hook_key := some "do_attack",
               is_patrolling := false, is_hunting := false,
               is_attacking := true } := by
  unfold start_attacking
  rw [hagg]
  simp only [Bool.true_eq_false, if_false]
  rw [set_ticker_add cfg s _ _ hinv]

theorem start_hunting_eq_of_hunter (cfg : MobConfig) (s : MobState)
    (hinv : TickerInv cfg s) (hh : cfg.hunting = true) :
    start_hunting cfg s =
      { s with tickers := [⟨cfg.hunting_pace, "do_hunt", mobIdstring cfg⟩],
               last_ticker_interval := some cfg.hunting_pace,
               last_hook_key := some "do_hunt",
               is_patrolling := false, is_hunting := true,
               is_attacking := false } := by
  unfold start_hunting
  rw [hh]
  simp only [Bool.true_eq_false, if_false]
  rw [set_ticker_add cfg s _ _ hinv]

theorem start_hunting_eq_of_no_hunt (cfg : MobConfig) (s : MobState)
    (hh : cfg.hunting = false) :
    start_hunting cfg s = start_patrolling cfg s := by
  unfold start_hunting
  rw [hh]
  rfl

theorem start_idle_inv (cfg : MobConfig) (s : MobState)
    (hinv : TickerInv cfg s) : TickerInv cfg (start_idle cfg s) := by
  rw [start_idle_eq cfg s hinv]
  exact tickerInv_empty cfg s

theorem start_patrolling_inv (cfg : MobConfig) (s : MobState)
    (hpp : cfg.patrolling_pace ≠ 0) (hinv : TickerInv cfg s) :
    TickerInv cfg (start_patrolling cfg s) := by
  by_cases hp : cfg.patrolling = true
  · rw [start_patrolling_eq cfg s hinv hp]
    exact tickerInv_single cfg s _ _ hpp (by decide)
  · unfold start_patrolling
    rw [Bool.not_eq_true] at hp
    rw [hp]
    simp only [if_true]
    exact start_idle_inv cfg s hinv

theorem start_hunting_inv (cfg : MobConfig) (s : MobState)
    (hpp : cfg.patrolling_pace ≠ 0) (hhp : cfg.hunting_pace ≠ 0)
    (hinv : TickerInv cfg s) : TickerInv cfg (start_hunting cfg s) := by
  by_cases hh : cfg.hunting = true
  · rw [start_hunting_eq_of_hunter cfg s hinv hh]
    exact tickerInv_single cfg s _ _ hhp (by decide)
  · rw [Bool.not_eq_true] at hh
    rw [start_hunting_eq_of_no_hunt cfg s hh]
    exact start_patrolling_inv cfg s hpp hinv

theorem start_attacking_inv (cfg : MobConfig) (s : MobState)
    (hpp : cfg.patrolling_pace ≠ 0) (hhp : cfg.hunting_pace ≠ 0)
    (hap : cfg.attacking_pace ≠ 0) (hinv : TickerInv cfg s) :
    TickerInv cfg (start_attacking cfg s) := by
  by_cases hagg : cfg.aggressive = true
  · rw [start_attacking_eq cfg s hinv hagg]
    exact tickerInv_single cfg s _ _ hap (by decide)
  · unfold start_attacking
    rw [Bool.not_eq_true] at hagg
    rw [hagg]
    simp only [if_true]
    exact start_hunting_inv cfg s hpp hhp hinv

theorem applyTransition_inv (cfg : MobConfig) (t : MobTransition) (s : MobState)
    (hpp : cfg.patrolling_pace ≠ 0) (hhp : cfg.hunting_pace ≠ 0)
    (hap : cfg.attacking_pace ≠ 0) (hinv : TickerInv cfg s) :
    TickerInv cfg (applyTransition cfg t s) := by
  cases t with
  | idle => exact start_idle_inv cfg s hinv
  | patrolling => exact start_patrolling_inv cfg s hpp hinv
  | hunting => exact start_hunting_inv cfg s hpp hhp hinv
  | attacking => exact start_attacking_inv cfg s hpp hhp hap hinv

theorem applyTransitions_inv (cfg : MobConfig)
    (hpp : cfg.patrolling_pace ≠ 0) (hhp : cfg.hunting_pace ≠ 0)
    (hap : cfg.attacking_pace ≠ 0) :
    ∀ (ts : List MobTransition) (s : MobState), TickerInv cfg s →
      TickerInv cfg (applyTransitions cfg ts s) := by
  intro ts
  induction ts with
  | nil => intro s hinv; exact hinv
  | cons t ts ih =>
      intro s hinv
      exact ih _ (applyTransition_inv cfg t s hpp hhp hap hinv)

theorem tickerInv_length_le (cfg : MobConfig) (s : MobState)
    (hinv : TickerInv cfg s) : s.tickers.length ≤ 1 := by
  rw [hinv]
  exact recordedSubs_length_le cfg s

theorem set_ticker_health (cfg : MobConfig) (s : MobState) (i : Option ℕ)
    (hk : Option String) (st : Bool) :
    (set_ticker cfg s i hk st).health = s.health := by
  unfold set_ticker
  dsimp only
  split <;> rfl

theorem start_idle_health (cfg : MobConfig) (s : MobState) :
    (start_idle cfg s).health = s.health :=
  set_ticker_health cfg s none none true

theorem start_patrolling_health (cfg : MobConfig) (s : MobState) :
    (start_patrolling cfg s).health = s.health := by
  unfold start_patrolling
  split
  · exact start_idle_health cfg s
  · exact set_ticker_health cfg s _ _ _

theorem start_hunting_health (cfg : MobConfig) (s : MobState) :
    (start_hunting cfg s).health = s.health := by
  unfold start_hunting
  split
  · exact start_patrolling_health cfg s
  · exact set_ticker_health cfg s _ _ _

theorem start_attacking_health (cfg : MobConfig) (s : MobState) :
    (start_attacking cfg s).health = s.health := by
  unfold start_attacking
  split
  · exact start_hunting_health cfg s
  · exact set_ticker_health cfg s _ _ _

theorem mob_gain_health_health (cfg : MobConfig) (s : MobState) (amount : ℤ) :
    ((mob_gain_health cfg s amount).1).health
      = max MIN_HEALTH (min s.max_health (s.health + amount)) := by
  unfold mob_gain_health
  dsimp only
  split
  · rfl
  · split
    · exact start_attacking_health cfg _
    · rfl

/-! ## Claim theorems -/

/-- C1: the claim says `apply_armor` applies the flat-armor reduction
`floor(damage * (100 - armor) / 100)` to the possibly deflect-halved value,
so that deflect-armor 100 (deflect roll certain) plus base armor 50 quarters
the damage.  Evaluating the embedded code at damage 100, deflect-armor 100,
base armor 50, deflect roll 0: both armor branches fire (both notification
messages are sent), yet the result is 50 — the flat-armor branch recomputes
from the original damage, discarding the halving — not the 25 the claim
requires. -/
theorem C1_flat_armor_discards_deflect_halving :
    (apply_armor ⟨50, 100⟩ 100 0).1 = 50 ∧
    (apply_armor ⟨50, 100⟩ 100 0).1 ≠ 25 ∧
    (apply_armor ⟨50, 100⟩ 100 0).2 =
      ["The attack is deflected by your armor.",
       "The attack is partially blocked by your armor."] := by decide

/-- C2: the claim says a hurt effect with the affects-caster flag applies
the damage additionally to the caster through the caster's `gain_health`.
Evaluating the embedded `apply_hurt_effect` on a single-target hurt effect
(base damage 10, affects_caster set, target distinct from the caster): the
flag-driven extra call goes to the TARGET again (`target.gain_health(-damage,
damager=None)` in the source), and no call with the caster as recipient is
ever issued. -/
theorem C2_affects_caster_damages_target_instead :
    apply_hurt_effect ⟨.HURT, 10, 0, 0, 0, false, true⟩ 1 0 [] true true
      = some [⟨.target, -10, true⟩, ⟨.target, -10, false⟩] ∧
    (apply_hurt_effect ⟨.HURT, 10, 0, 0, 0, false, true⟩ 1 0 [] true true).map
        (fun calls => calls.any
          (fun c => decide (c.recipient = HurtRecipient.caster)))
      = some false := by decide

/-- C3: for player characters and mobs alike, `gain_health` keeps
`0 ≤ health ≤ max_health` (given it held before the call), a negative delta
clamps at `max(health + delta, 0)` and a positive one at
`min(health + delta, maxHealth)`. -/
theorem C3_gain_health_clamps (amount : ℤ) (cv : CharVitals)
    (cfg : MobConfig) (ms : MobState)
    (hc0 : 0 ≤ cv.health) (hc1 : cv.health ≤ cv.max_health)
    (hm0 : 0 ≤ ms.health) (hm1 : ms.health ≤ ms.max_health) :
    (0 ≤ (character_gain_health cv amount).1.health ∧
      (character_gain_health cv amount).1.health ≤ cv.max_health ∧
      (character_gain_health cv amount).1.health =
        (if amount < 0 then max (cv.health + amount) 0
         else min (cv.health + amount) cv.max_health)) ∧
    (0 ≤ (mob_gain_health cfg ms amount).1.health ∧
      (mob_gain_health cfg ms amount).1.health ≤ ms.max_health ∧
      (mob_gain_health cfg ms amount).1.health =
        (if amount < 0 then max (ms.health + amount) 0
         else min (ms.health + amount) ms.max_health)) := by
  have hchar : (character_gain_health cv amount).1.health =
      (if amount < 0 then max (cv.health + amount) 0
       else min (cv.health + amount) cv.max_health) := by
    unfold character_gain_health MIN_HEALTH
    split_ifs with h
    · dsimp only
      omega
    · dsimp only
  have hmob := mob_gain_health_health cfg ms amount
  unfold MIN_HEALTH at hmob
  constructor
  · refine ⟨?_, ?_, ?_⟩
    · rw [hchar]
      split_ifs <;> omega
    · rw [hchar]
      split_ifs <;> omega
    · rw [hchar]
  · refine ⟨?_, ?_, ?_⟩ <;> rw [hmob]
    · omega
    · omega
    · split_ifs <;> omega

/-- C3 witness: the clamp theorem at concrete inputs — a character at 10/20
health taking 15 damage, and a fresh default mob taking 15 damage. -/
theorem C3_gain_health_clamps_witness :
    0 ≤ (character_gain_health ⟨10, 20⟩ (-15)).1.health ∧
    (mob_gain_health mobCfgDefault mobStateFresh (-15)).1.health =
      (if (-15 : ℤ) < 0 then max (100 + -15) 0 else min (100 + -15) 100) :=
  ⟨(C3_gain_health_clamps (-15) ⟨10, 20⟩ mobCfgDefault mobStateFresh
      (by decide) (by decide) (by decide) (by decide)).1.1,
   (C3_gain_health_clamps (-15) ⟨10, 20⟩ mobCfgDefault mobStateFresh
      (by decide) (by decide) (by decide) (by decide)).2.2.2⟩

/-- C4: under the ticker-bookkeeping invariant (live subscriptions = the
recorded one) and nonzero cadences, every sequence of behavioural-state
transitions preserves the invariant and leaves at most one active
subscription, and the sequence Patrolling → Attacking → Hunting → Patrolling
on a patrolling-configured mob ends with exactly one subscription at the
patrolling cadence (whatever the aggressive/hunting flags, since the
fall-through transitions also replace the previous subscription). -/
theorem C4_one_subscription (cfg : MobConfig) (s : MobState)
    (hpp : cfg.patrolling_pace ≠ 0) (hhp : cfg.hunting_pace ≠ 0)
    (hap : cfg.attacking_pace ≠ 0) (hinv : TickerInv cfg s)
    (hp : cfg.patrolling = true) :
    (∀ ts : List MobTransition,
        TickerInv cfg (applyTransitions cfg ts s) ∧
        (applyTransitions cfg ts s).tickers.length ≤ 1) ∧
    (applyTransitions cfg
        [.patrolling, .attacking, .hunting, .patrolling] s).tickers
      = [⟨cfg.patrolling_pace, "do_patrol", mobIdstring cfg⟩] := by
  constructor
  · intro ts
    have h1 := applyTransitions_inv cfg hpp hhp hap ts s hinv
    exact ⟨h1, tickerInv_length_le cfg _ h1⟩
  · have e1 : applyTransitions cfg
        [.patrolling, .attacking, .hunting, .patrolling] s
        = start_patrolling cfg (start_hunting cfg
            (start_attacking cfg (start_patrolling cfg s))) := rfl
    rw [e1]
    have i1 : TickerInv cfg (start_patrolling cfg s) :=
      start_patrolling_inv cfg s hpp hinv
    have i2 : TickerInv cfg (start_attacking cfg (start_patrolling cfg s)) :=
      start_attacking_inv cfg _ hpp hhp hap i1
    have i3 : TickerInv cfg (start_hunting cfg
        (start_attacking cfg (start_patrolling cfg s))) :=
      start_hunting_inv cfg _ hpp hhp i2
    rw [start_patrolling_eq cfg _ i3 hp]

/-- C4 witness: the theorem at the default mob configuration and a fresh
state — after Patrolling → Attacking → Hunting → Patrolling exactly the
patrolling-cadence subscription is live. -/
theorem C4_one_subscription_witness :
    (applyTransitions mobCfgDefault
        [.patrolling, .attacking, .hunting, .patrolling] mobStateFresh).tickers
      = [⟨6, "do_patrol", mobIdstring mobCfgDefault⟩] :=
  (C4_one_subscription mobCfgDefault mobStateFresh (by decide) (by decide)
    (by decide) rfl rfl).2

/-- C10: a mob whose persistent aggressive flag is set and which is not in
the Attacking state retaliates when damaged: a negative delta through
`Mob.gain_health` that leaves health positive installs the attacking-cadence
ticker and sets the attacking flag (and does not trigger death). -/
theorem C10_retaliation_attacks (cfg : MobConfig) (s : MobState) (amount : ℤ)
    (hagg : cfg.aggressive = true) (hatk : s.is_attacking = false)
    (hneg : amount < 0) (hmax : s.health ≤ s.max_health)
    (hsurv : 0 < s.health + amount) (hinv : TickerInv cfg s) :
    (mob_gain_health cfg s amount).2 = false ∧
    (mob_gain_health cfg s amount).1.is_attacking = true ∧
    (mob_gain_health cfg s amount).1.tickers
      = [⟨cfg.attacking_pace, "do_attack", mobIdstring cfg⟩] := by
  have hclamp : max MIN_HEALTH (min s.max_health (s.health + amount))
      = s.health + amount := by
    unfold MIN_HEALTH
    omega
  have hcond : ¬ (s.health + amount ≤ 0) := by omega
  have hstep : mob_gain_health cfg s amount =
      (start_attacking cfg
        { s with health := s.health + amount, ndb_aggressive := true }, false) := by
    unfold mob_gain_health
    dsimp only
    rw [hclamp, if_neg hcond, if_pos ⟨hneg, hatk⟩]
  rw [hstep]
  have hinv2 : TickerInv cfg
      { s with health := s.health + amount, ndb_aggressive := true } := hinv
  rw [start_attacking_eq cfg _ hinv2 hagg]
  exact ⟨rfl, rfl, rfl⟩

/-- C10 witness: a fresh, healthy, non-attacking default-config mob taking
30 damage ends up in the Attacking state with the attacking-cadence ticker
installed. -/
theorem C10_retaliation_attacks_witness :
    (mob_gain_health mobCfgDefault mobStateFresh (-30)).1.is_attacking = true :=
  (C10_retaliation_attacks mobCfgDefault mobStateFresh (-30) rfl rfl
    (by decide) (by decide) (by decide) rfl).2.1

/-- C7: the claim says an Attacking-state tick with no remaining valid
target transitions the mob to the Hunting state.  On the configuration the
code actually creates (`at_object_creation` never sets `db.hunting`) the
falsy hunting flag makes `start_hunting` fall through to `start_patrolling`:
after the tick the mob is Patrolling, not Hunting.  Moreover the hook key
`start_hunting` registers, `"do_hunt"`, names no method of the Mob typeclass
(the method is `do_hunting`), so a truthy-hunting mob's `getattr` would
raise.  With a target present the mob-attack path is invoked, as claimed. -/
theorem C7_no_target_tick_does_not_hunt :
    ((do_attack mobCfgDefault mobStateAttacking false).1.is_hunting = false ∧
      (do_attack mobCfgDefault mobStateAttacking false).1.is_patrolling = true ∧
      (do_attack mobCfgDefault mobStateAttacking false).1.tickers
        = [⟨6, "do_patrol", "tick_state_m"⟩] ∧
      (do_attack mobCfgDefault mobStateAttacking false).2 = false) ∧
    (do_attack mobCfgDefault mobStateAttacking true).2 = true ∧
    ((start_hunting mobCfgHunter mobStateAttacking).last_hook_key
        = some "do_hunt" ∧
      mobHasHookMethod "do_hunt" = false ∧
      mobHasHookMethod "do_hunting" = true) := by decide

/-- C5: when all four eligibility checks pass but the failure roll comes in
below the spell's (nonzero) failure chance, `cast_spell` emits exactly the
failure message and aborts before cost deduction: mana is unchanged and no
spell effect is applied. -/
theorem C5_failed_roll_preserves_mana (caster : Caster) (spell : Spell)
    (failRoll : ℕ)
    (h1 : ¬(spell.class_id ≠ 0 ∧ spell.class_id ≠ caster.class_record_id))
    (h2 : ¬(spell.group ≠ 0 ∧ spell.group ≠ caster.class_group))
    (h3 : spell.min_level ≤ caster.level)
    (h4 : spell.mana + spell.level_mana * caster.level ≤ caster.mana)
    (h5 : spell.failure_chance ≠ 0) (h6 : failRoll < spell.failure_chance) :
    (cast_spell caster spell failRoll).mana = caster.mana ∧
    (cast_spell caster spell failRoll).casterMsgs = [failureMessage spell] ∧
    (cast_spell caster spell failRoll).effectsApplied = [] := by
  have hstep : cast_spell caster spell failRoll =
      ⟨caster.mana,
        (if spell.reveals = true ∧ caster.hiding_depth > 0 then 0
         else caster.hiding_depth),
        [failureMessage spell], []⟩ := by
    unfold cast_spell
    rw [if_neg h1, if_neg h2, if_neg (not_lt.2 h3), if_neg (not_lt.2 h4)]
    dsimp only
    rw [if_pos ⟨h5, h6⟩]
    by_cases hrev : spell.reveals = true ∧ caster.hiding_depth > 0
    · rw [if_pos hrev, if_pos hrev]
      rfl
    · rw [if_neg hrev, if_neg hrev]
  rw [hstep]
  exact ⟨rfl, rfl, rfl⟩

/-- C5 witness: an eligible caster (class 1, group 1, level 5, 100 mana)
whose `spellZap` cast rolls 10 against failure chance 30 keeps all 100 mana,
gets only the failure message, and no effect is applied. -/
theorem C5_failed_roll_preserves_mana_witness :
    (cast_spell casterElig spellZap 10).mana = 100 ∧
    (cast_spell casterElig spellZap 10).casterMsgs
      = [failureMessage spellZap] ∧
    (cast_spell casterElig spellZap 10).effectsApplied = [] :=
  C5_failed_roll_preserves_mana casterElig spellZap 10 (by decide) (by decide)
    (by decide) (by decide) (by decide) (by decide)

/-- C6: the claim says `can_cast_spell` returns a boolean — `False` with a
caster-visible reason when a check fails, `True` when all four pass.  The
embedded source indeed returns `False` plus a reason on each failed check,
but when all four checks pass it reaches the end of the function body with
no `return` statement: the result is `None` (falsy), never `True`. -/
theorem C6_can_cast_never_returns_true :
    can_cast_spell casterElig spellZap = (none, none) ∧
    (can_cast_spell casterElig spellZap).1 ≠ some true ∧
    can_cast_spell casterLowMana spellZap
      = (some false, some "You do not have enough mana.") := by decide

/-- C8: the claim says surprise attacks use the fixed multiplier 0.7 in the
weapon/claw formula and in the mob formula alike, and clear concealment
before the damage messages.  The weapon/claw path does: claw base 5 with
random-claw 10 yields 5 + int(10 * 0.7) = 12 whatever uniform draw is
threaded, and the resolved surprise attack emits the reveal before any
damage message.  The mob path does NOT: `mob_attack_damage` computes its
`rand_multiplier` but the damage formula never uses it — surprise damage is
`base + randint(0, random_damage)` (10 and 110 at rolls 0 and 100,
unchanged by the multiplier argument). -/
theorem C8_mob_formula_ignores_multiplier :
    attack_damage ⟨0, 0, 0, 5, 10, 0, 0, 0⟩ false 0 1 true = 12 ∧
    attack_damage ⟨0, 0, 0, 5, 10, 0, 0, 0⟩ false 9 10 true = 12 ∧
    mob_attack_damage ⟨10, 100, 0⟩ 0 1 0 true = 10 ∧
    mob_attack_damage ⟨10, 100, 0⟩ 0 1 100 true = 110 ∧
    mob_attack_damage ⟨10, 100, 0⟩ 7 10 60 true
      = mob_attack_damage ⟨10, 100, 0⟩ 0 1 60 true ∧
    resolve_attack surpriseAttacker surpriseTarget 0 1 100 100 true
      = [.surpriseAttackerMsg, .surpriseTargetMsg, .revealed,
          .attackerDamageMsg 10, .targetDamageMsg 10, .bystanderDamageMsg 10,
          .healthDelta (-10)] := by decide

/-- C9: `character_death` halves the victim's surviving experience exactly
once (`set_xp(victim, int(xp / 2))`), fully resets the transient state (mana
zero, poison cleared, active and queued commands cleared, frozen-until
cleared, concealment cleared, resting cleared), and issues exactly one
world-visible death broadcast whose text matches the killer/weapon presence
combination. -/
theorem C9_character_death_resets (victim : VictimState)
    (items : List HeldItem) (killer : Option KillerInfo)
    (weapon_name : Option String) :
    (character_death victim items killer weapon_name).victim.xp
        = Int.tdiv victim.xp 2 ∧
    (character_death victim items killer weapon_name).victim.mana = 0 ∧
    (character_death victim items killer weapon_name).victim.poisoned
        = false ∧
    (character_death victim items killer weapon_name).victim.has_active_command
        = false ∧
    (character_death victim items killer weapon_name).victim.command_queue_len
        = 0 ∧
    (character_death victim items killer weapon_name).victim.frozen_until
        = 0 ∧
    (character_death victim items killer weapon_name).victim.hiding_depth
        = 0 ∧
    (character_death victim items killer weapon_name).victim.resting
        = false ∧
    (character_death victim items killer weapon_name).globalMsgs.length
        = 1 ∧
    (∀ k w, killer = some k → weapon_name = some w → w ≠ "" →
      (character_death victim items killer weapon_name).globalMsgs
        = [victim.name ++ " has been slain by " ++ k.name ++ "\x27s "
            ++ w ++ "."]) ∧
    (∀ k, killer = some k → weapon_name = none →
      (character_death victim items killer weapon_name).globalMsgs
        = [victim.name ++ " has been slain by " ++ k.name ++ "."]) ∧
    (∀ w, killer = none → weapon_name = some w → w ≠ "" →
      (character_death victim items killer weapon_name).globalMsgs
        = [victim.name ++ " has been slain by a " ++ w ++ "."]) ∧
    (killer = none → weapon_name = none →
      (character_death victim items killer weapon_name).globalMsgs
        = [victim.name ++ " has died of mysterious causes."]) := by
  refine ⟨rfl, rfl, rfl, rfl, rfl, rfl, rfl, rfl, rfl, ?_, ?_, ?_, ?_⟩
  · intro k w hk hw hww
    subst hk
    subst hw
    simp [character_death, truthyOptStr, hww]
  · intro k hk hw
    subst hk
    subst hw
    simp [character_death, truthyOptStr]
  · intro w hk hw hww
    subst hk
    subst hw
    simp [character_death, truthyOptStr, hww]
  · intro hk hw
    subst hk
    subst hw
    simp [character_death, truthyOptStr]

/-- C9 witness: a poisoned, concealed, resting victim slain by Mallory with
a sword gets the both-known broadcast variant. -/
theorem C9_character_death_resets_witness :
    (character_death ⟨"Bob", 101, 50, true, true, 3, 9, 2, true⟩ []
        (some ⟨"Mallory", true, 7⟩) (some "sword")).globalMsgs
      = ["Bob" ++ " has been slain by " ++ "Mallory" ++ "\x27s "
          ++ "sword" ++ "."] :=
  ((C9_character_death_resets ⟨"Bob", 101, 50, true, true, 3, 9, 2, true⟩ []
      (some ⟨"Mallory", true, 7⟩) (some "sword")).2.2.2.2.2.2.2.2.2.1)
    ⟨"Mallory", true, 7⟩ "sword" rfl rfl (by decide)

end EvMonster
